import Mathlib

/-!
Verification of the swap-amount resolution and eligibility-gating logic of
the fungible entangler (`swap_shared_logic` in
`programs/fungible-entangler/src/instructions/swap/common.rs`).

The Rust function reads two entangler configuration records (parent, child),
two token-account balance snapshots (`base`, `source`), a clock, and the swap
arguments, and returns either a resolved swap amount or an error code.  We
embed it shallowly: `u64` balances become `Nat` (the function only compares
them, so no overflow arithmetic is involved), `i64` timestamps become `Int`,
and the fallible result becomes `Except ErrorCode SwapAmount`.  The single
`args.amount.unwrap()` call in the fixed-amount branch can in principle
panic; we model the whole function inside `Option`, with `none` standing for
that panic, and prove it never occurs.
-/

namespace Strata

/-- Parent entangler configuration record (`FungibleParentEntanglerV0`):
the fields read by the swap logic. -/
structure FungibleParentEntanglerV0 where
  go_live_unix_time : Int
  freeze_swap_unix_time : Option Int
  deriving DecidableEq

/-- Child entangler configuration record (`FungibleChildEntanglerV0`):
the fields read by the swap logic. -/
structure FungibleChildEntanglerV0 where
  go_live_unix_time : Int
  freeze_swap_unix_time : Option Int
  deriving DecidableEq

/-- Snapshot of a token account: the swap logic only reads its `amount`. -/
structure TokenAccount where
  amount : Nat
  deriving DecidableEq

/-- The clock sysvar: the swap logic only reads `unix_timestamp`. -/
structure Clock where
  unix_timestamp : Int
  deriving DecidableEq

/-- Arguments of the swap instruction (`SwapV0Args`): an optional fixed
amount and an optional "swap everything" flag. -/
structure SwapV0Args where
  amount : Option Nat
  all : Option Bool
  deriving DecidableEq

/-- The error codes the swap logic can report. -/
inductive ErrorCode where
  | InvalidArgs
  | ParentNotLiveYet
  | ChildNotLiveYet
  | ParentSwapFrozen
  | ChildSwapFrozen
  | TokenAccountAmountTooLow
  deriving DecidableEq

/-- The successful result: the resolved transfer amount. -/
structure SwapAmount where
  amount : Nat
  deriving DecidableEq

/-- Rust's derived `Ord` comparison `a > b` on `Option<i64>`
(`None` is smaller than every `Some`), as used by the freeze checks. -/
def optionIntGt : Option Int → Option Int → Bool
  | none, _ => false
  | some _, none => true
  | some x, some y => decide (y < x)

/-- Shallow embedding of `swap_shared_logic`.  Each `require!` becomes an
`if`-guard returning the corresponding error; the final branch mirrors the
`args.all == Some(true)` split.  The outer `Option` models the potential
panic of `args.amount.unwrap()`: `none` is the panic. -/
def swap_shared_logic (parent_entangler : FungibleParentEntanglerV0)
    (child_entangler : FungibleChildEntanglerV0)
    (base source : TokenAccount) (clock : Clock) (args : SwapV0Args) :
    Option (Except ErrorCode SwapAmount) :=
  if ¬ ((args.all.isSome ∧ args.all = some true) ∨ args.amount.isSome) then
    some (Except.error ErrorCode.InvalidArgs)
  else if ¬ (parent_entangler.go_live_unix_time < clock.unix_timestamp) then
    some (Except.error ErrorCode.ParentNotLiveYet)
  else if ¬ (child_entangler.go_live_unix_time < clock.unix_timestamp) then
    some (Except.error ErrorCode.ChildNotLiveYet)
  else if ¬ (parent_entangler.freeze_swap_unix_time = none ∨
      optionIntGt parent_entangler.freeze_swap_unix_time (some clock.unix_timestamp) = true) then
    some (Except.error ErrorCode.ParentSwapFrozen)
  else if ¬ (child_entangler.freeze_swap_unix_time = none ∨
      optionIntGt child_entangler.freeze_swap_unix_time (some clock.unix_timestamp) = true) then
    some (Except.error ErrorCode.ChildSwapFrozen)
  else if args.all = some true then
    some (Except.ok ⟨if source.amount > base.amount then base.amount else source.amount⟩)
  else
    match args.amount with
    | some n =>
        if base.amount ≥ n then some (Except.ok ⟨n⟩)
        else some (Except.error ErrorCode.TokenAccountAmountTooLow)
    | none => none

/-- All four timing gates pass: both go-live instants are strictly in the
past, and each freeze time is either absent or strictly in the future
(stated exactly as the code tests them). -/
def timingGatesPass (parent_entangler : FungibleParentEntanglerV0)
    (child_entangler : FungibleChildEntanglerV0) (clock : Clock) : Prop :=
  parent_entangler.go_live_unix_time < clock.unix_timestamp ∧
  child_entangler.go_live_unix_time < clock.unix_timestamp ∧
  (parent_entangler.freeze_swap_unix_time = none ∨
    optionIntGt parent_entangler.freeze_swap_unix_time (some clock.unix_timestamp) = true) ∧
  (child_entangler.freeze_swap_unix_time = none ∨
    optionIntGt child_entangler.freeze_swap_unix_time (some clock.unix_timestamp) = true)

instance (p : FungibleParentEntanglerV0) (c : FungibleChildEntanglerV0) (clock : Clock) :
    Decidable (timingGatesPass p c clock) := by
  unfold timingGatesPass
  infer_instance

/-- C10: the resolver is total — the well-formedness gate guarantees that
`args.amount.unwrap()` in the fixed-amount branch is never reached with a
missing amount, so for every input the function returns either a resolved
amount or a rejection, never a panic (modelled as `none`). -/
theorem swap_shared_logic_total (p : FungibleParentEntanglerV0)
    (c : FungibleChildEntanglerV0) (base source : TokenAccount)
    (clock : Clock) (args : SwapV0Args) :
    (swap_shared_logic p c base source clock args).isSome = true := by
  unfold swap_shared_logic
  rcases args with ⟨amt, allFlag⟩
  rcases amt with _ | n <;> rcases allFlag with _ | b <;>
    simp_all <;> split_ifs <;> simp_all

/-- C8: with parent and child go-live at 100, now 150, no freeze times,
`base_balance = 500`, `source_balance = 300`: a `{all: true}` request
resolves to 300; a `{amount: 400}` request resolves to 400; a
`{amount: 600}` request fails with `TokenAccountAmountTooLow`. -/
theorem swap_example_scenarios :
    swap_shared_logic ⟨100, none⟩ ⟨100, none⟩ ⟨500⟩ ⟨300⟩ ⟨150⟩ ⟨none, some true⟩ =
      some (Except.ok ⟨300⟩) ∧
    swap_shared_logic ⟨100, none⟩ ⟨100, none⟩ ⟨500⟩ ⟨300⟩ ⟨150⟩ ⟨some 400, none⟩ =
      some (Except.ok ⟨400⟩) ∧
    swap_shared_logic ⟨100, none⟩ ⟨100, none⟩ ⟨500⟩ ⟨300⟩ ⟨150⟩ ⟨some 600, none⟩ =
      some (Except.error ErrorCode.TokenAccountAmountTooLow) := by
  refine ⟨?_, ?_, ?_⟩ <;> rfl

/-- C7: the resolver is a deterministic pure function of its arguments —
two calls with identical inputs (same configs, balances, timestamp and
request) return identical results. -/
theorem swap_shared_logic_deterministic (p p' : FungibleParentEntanglerV0)
    (c c' : FungibleChildEntanglerV0) (base base' source source' : TokenAccount)
    (clock clock' : Clock) (args args' : SwapV0Args)
    (hp : p = p') (hc : c = c') (hb : base = base') (hs : source = source')
    (hk : clock = clock') (ha : args = args') :
    swap_shared_logic p c base source clock args =
      swap_shared_logic p' c' base' source' clock' args' := by
  subst hp hc hb hs hk ha
  rfl

/-- Helper: a well-formed request passes the `InvalidArgs` gate. -/
theorem wf_gate_of_wf (args : SwapV0Args)
    (hwf : args.all = some true ∨ args.amount.isSome) :
    ((args.all.isSome ∧ args.all = some true) ∨ args.amount.isSome) := by
  rcases hwf with h | h
  · exact Or.inl ⟨by simp [h], h⟩
  · exact Or.inr h

/-- Helper: a parent go-live time at or after `now` yields `ParentNotLiveYet`
for every well-formed request. -/
theorem parent_not_live_eq (p : FungibleParentEntanglerV0)
    (c : FungibleChildEntanglerV0) (base source : TokenAccount)
    (clock : Clock) (args : SwapV0Args)
    (hwf : args.all = some true ∨ args.amount.isSome)
    (h : clock.unix_timestamp ≤ p.go_live_unix_time) :
    swap_shared_logic p c base source clock args =
      some (Except.error ErrorCode.ParentNotLiveYet) := by
  unfold swap_shared_logic
  simp [wf_gate_of_wf args hwf, not_lt.mpr h]

/-- Helper: with the parent live but the child's go-live time at or after
`now`, the result is `ChildNotLiveYet` for every well-formed request. -/
theorem child_not_live_eq (p : FungibleParentEntanglerV0)
    (c : FungibleChildEntanglerV0) (base source : TokenAccount)
    (clock : Clock) (args : SwapV0Args)
    (hwf : args.all = some true ∨ args.amount.isSome)
    (hp : p.go_live_unix_time < clock.unix_timestamp)
    (h : clock.unix_timestamp ≤ c.go_live_unix_time) :
    swap_shared_logic p c base source clock args =
      some (Except.error ErrorCode.ChildNotLiveYet) := by
  unfold swap_shared_logic
  simp [wf_gate_of_wf args hwf, hp, not_lt.mpr h]

/-- C3: for a well-formed request, if the parent's go-live time has not
strictly passed the call is rejected with `ParentNotLiveYet`; if the
parent's has but the child's has not, it is rejected with
`ChildNotLiveYet` â in particular `go_live_time = now` rejects, and the
balances are irrelevant (they are universally quantified). -/
theorem go_live_gating (p : FungibleParentEntanglerV0)
    (c : FungibleChildEntanglerV0) (base source : TokenAccount)
    (clock : Clock) (args : SwapV0Args)
    (hwf : args.all = some true ∨ args.amount.isSome) :
    (clock.unix_timestamp ≤ p.go_live_unix_time →
      swap_shared_logic p c base source clock args =
        some (Except.error ErrorCode.ParentNotLiveYet)) ∧
    (p.go_live_unix_time < clock.unix_timestamp →
      clock.unix_timestamp ≤ c.go_live_unix_time →
      swap_shared_logic p c base source clock args =
        some (Except.error ErrorCode.ChildNotLiveYet)) := by
  exact ⟨parent_not_live_eq p c base source clock args hwf,
    child_not_live_eq p c base source clock args hwf⟩

/-- Witness for C3: at `now = 100` with both go-live times equal to 100
(the boundary instant) the call is rejected with `ParentNotLiveYet`, and
with `parent.go_live = 50 < 100 = child.go_live` it is rejected with
`ChildNotLiveYet`. -/
theorem go_live_gating_witness :
    swap_shared_logic ⟨100, none⟩ ⟨100, none⟩ ⟨500⟩ ⟨300⟩ ⟨100⟩ ⟨some 1, none⟩ =
      some (Except.error ErrorCode.ParentNotLiveYet) ∧
    swap_shared_logic ⟨50, none⟩ ⟨100, none⟩ ⟨500⟩ ⟨300⟩ ⟨100⟩ ⟨some 1, none⟩ =
      some (Except.error ErrorCode.ChildNotLiveYet) :=
  ⟨(go_live_gating ⟨100, none⟩ ⟨100, none⟩ ⟨500⟩ ⟨300⟩ ⟨100⟩ ⟨some 1, none⟩
      (Or.inr rfl)).1 (by decide),
   (go_live_gating ⟨50, none⟩ ⟨100, none⟩ ⟨500⟩ ⟨300⟩ ⟨100⟩ ⟨some 1, none⟩
      (Or.inr rfl)).2 (by decide) (by decide)⟩

/-- C6 counterexample: with `parent.go_live = 100 ≥ 50 = now` but a
malformed request (neither `all = Some(true)` nor an amount), the call is
rejected with `InvalidArgs`, not with `ParentNotLiveYet` or
`ChildNotLiveYet` — the well-formedness gate fires first, so the claim
fails for malformed request shapes. -/
theorem go_live_malformed_counterexample :
    swap_shared_logic ⟨100, none⟩ ⟨100, none⟩ ⟨500⟩ ⟨300⟩ ⟨50⟩ ⟨none, none⟩ =
      some (Except.error ErrorCode.InvalidArgs) ∧
    ErrorCode.InvalidArgs ≠ ErrorCode.ParentNotLiveYet ∧
    ErrorCode.InvalidArgs ≠ ErrorCode.ChildNotLiveYet :=
  ⟨rfl, by decide, by decide⟩

/-- C6 (amended): for every pair of configurations with parent or child
`go_live_time ≥ now` and every well-formed request, resolution fails with
`ParentNotLiveYet` or `ChildNotLiveYet`, regardless of the balances. -/
theorem go_live_rejects_any_balances (p : FungibleParentEntanglerV0)
    (c : FungibleChildEntanglerV0) (base source : TokenAccount)
    (clock : Clock) (args : SwapV0Args)
    (hwf : args.all = some true ∨ args.amount.isSome)
    (h : clock.unix_timestamp ≤ p.go_live_unix_time ∨
         clock.unix_timestamp ≤ c.go_live_unix_time) :
    swap_shared_logic p c base source clock args =
      some (Except.error ErrorCode.ParentNotLiveYet) ∨
    swap_shared_logic p c base source clock args =
      some (Except.error ErrorCode.ChildNotLiveYet) := by
  by_cases hp : p.go_live_unix_time < clock.unix_timestamp
  · rcases h with h | h
    · exact absurd hp (not_lt.mpr h)
    · exact Or.inr (child_not_live_eq p c base source clock args hwf hp h)
  · exact Or.inl (parent_not_live_eq p c base source clock args hwf (not_lt.mp hp))

/-- Witness for the amended C6 at a concrete input. -/
theorem go_live_rejects_any_balances_witness :
    swap_shared_logic ⟨100, none⟩ ⟨0, none⟩ ⟨500⟩ ⟨300⟩ ⟨50⟩ ⟨some 10, none⟩ =
      some (Except.error ErrorCode.ParentNotLiveYet) ∨
    swap_shared_logic ⟨100, none⟩ ⟨0, none⟩ ⟨500⟩ ⟨300⟩ ⟨50⟩ ⟨some 10, none⟩ =
      some (Except.error ErrorCode.ChildNotLiveYet) :=
  go_live_rejects_any_balances ⟨100, none⟩ ⟨0, none⟩ ⟨500⟩ ⟨300⟩ ⟨50⟩
    ⟨some 10, none⟩ (Or.inr rfl) (Or.inl (by decide))


/-- Helper: the freeze comparison on two present timestamps is the strict
integer comparison. -/
theorem optionIntGt_some_some (x y : Int) :
    optionIntGt (some x) (some y) = decide (y < x) := rfl

/-- Helper: a freeze time that is absent or strictly in the future passes
the freeze gate as the code tests it. -/
theorem freeze_gate_pass (clock : Clock) (f : Option Int)
    (h : f = none ∨ ∃ t, f = some t ∧ clock.unix_timestamp < t) :
    (f = none ∨ optionIntGt f (some clock.unix_timestamp) = true) := by
  rcases h with hn | ⟨t, ht, hlt⟩
  · exact Or.inl hn
  · subst ht
    exact Or.inr (by simp [optionIntGt, hlt])

/-- C4: past both go-live gates, an absent freeze time never triggers a
freeze rejection for its side; `freeze_swap_time = some t` with
`t ≤ now` rejects with `ParentSwapFrozen` (resp. `ChildSwapFrozen`, once
the parent freeze gate passes); and a strictly-future freeze time passes
the gate. -/
theorem freeze_gating (p : FungibleParentEntanglerV0)
    (c : FungibleChildEntanglerV0) (base source : TokenAccount)
    (clock : Clock) (args : SwapV0Args)
    (hwf : args.all = some true ∨ args.amount.isSome)
    (hp : p.go_live_unix_time < clock.unix_timestamp)
    (hc : c.go_live_unix_time < clock.unix_timestamp) :
    (∀ t, p.freeze_swap_unix_time = some t → t ≤ clock.unix_timestamp →
      swap_shared_logic p c base source clock args =
        some (Except.error ErrorCode.ParentSwapFrozen)) ∧
    ((p.freeze_swap_unix_time = none ∨
        ∃ t, p.freeze_swap_unix_time = some t ∧ clock.unix_timestamp < t) →
      swap_shared_logic p c base source clock args ≠
        some (Except.error ErrorCode.ParentSwapFrozen)) ∧
    ((p.freeze_swap_unix_time = none ∨
        ∃ t, p.freeze_swap_unix_time = some t ∧ clock.unix_timestamp < t) →
      ∀ t, c.freeze_swap_unix_time = some t → t ≤ clock.unix_timestamp →
      swap_shared_logic p c base source clock args =
        some (Except.error ErrorCode.ChildSwapFrozen)) ∧
    ((p.freeze_swap_unix_time = none ∨
        ∃ t, p.freeze_swap_unix_time = some t ∧ clock.unix_timestamp < t) →
      (c.freeze_swap_unix_time = none ∨
        ∃ t, c.freeze_swap_unix_time = some t ∧ clock.unix_timestamp < t) →
      swap_shared_logic p c base source clock args ≠
        some (Except.error ErrorCode.ChildSwapFrozen)) := by
  have hgate := wf_gate_of_wf args hwf
  refine ⟨?_, ?_, ?_, ?_⟩
  · intro t ht hle
    unfold swap_shared_logic
    simp [hgate, hp, hc, ht, optionIntGt, not_lt.mpr hle]
  · intro hPnf
    unfold swap_shared_logic
    simp only [hgate, hp, hc, freeze_gate_pass clock _ hPnf]
    rcases hA : args.amount with _ | n <;> split_ifs <;> simp_all <;>
      split <;> simp_all
  · intro hPnf t ht hle
    unfold swap_shared_logic
    simp [hgate, hp, hc, freeze_gate_pass clock _ hPnf, ht,
      optionIntGt_some_some, not_lt.mpr hle]
  · intro hPnf hCnf
    unfold swap_shared_logic
    simp only [hgate, hp, hc, freeze_gate_pass clock _ hPnf,
      freeze_gate_pass clock _ hCnf]
    rcases hA : args.amount with _ | n <;> split_ifs <;> simp_all <;>
      split <;> simp_all

/-- Witness for C4: with a parent freeze time equal to `now` the call is
rejected with `ParentSwapFrozen`; with a parent freeze time of `now + 1`
it is not rejected for that reason. -/
theorem freeze_gating_witness :
    swap_shared_logic ⟨100, some 150⟩ ⟨100, none⟩ ⟨500⟩ ⟨300⟩ ⟨150⟩ ⟨some 10, none⟩ =
      some (Except.error ErrorCode.ParentSwapFrozen) ∧
    swap_shared_logic ⟨100, some 151⟩ ⟨100, none⟩ ⟨500⟩ ⟨300⟩ ⟨150⟩ ⟨some 10, none⟩ ≠
      some (Except.error ErrorCode.ParentSwapFrozen) :=
  ⟨(freeze_gating ⟨100, some 150⟩ ⟨100, none⟩ ⟨500⟩ ⟨300⟩ ⟨150⟩ ⟨some 10, none⟩
      (Or.inr rfl) (by decide) (by decide)).1 150 rfl (by decide),
   (freeze_gating ⟨100, some 151⟩ ⟨100, none⟩ ⟨500⟩ ⟨300⟩ ⟨150⟩ ⟨some 10, none⟩
      (Or.inr rfl) (by decide) (by decide)).2.1
      (Or.inr ⟨151, rfl, by decide⟩)⟩

/-- C1: for a fixed-amount request (`all ≠ some true`, `amount = some n`)
with all timing gates passing, resolution succeeds iff `base_balance ≥ n`,
on success the resolved amount is exactly `n`, on failure the error is
`TokenAccountAmountTooLow`, and the result never depends on the source
balance. -/
theorem fixed_amount_resolution (p : FungibleParentEntanglerV0)
    (c : FungibleChildEntanglerV0) (base source source' : TokenAccount)
    (clock : Clock) (args : SwapV0Args) (n : Nat)
    (hall : args.all ≠ some true) (hamt : args.amount = some n)
    (hgates : timingGatesPass p c clock) :
    (swap_shared_logic p c base source clock args = some (Except.ok ⟨n⟩) ↔
      base.amount ≥ n) ∧
    (¬ base.amount ≥ n →
      swap_shared_logic p c base source clock args =
        some (Except.error ErrorCode.TokenAccountAmountTooLow)) ∧
    swap_shared_logic p c base source clock args =
      swap_shared_logic p c base source' clock args := by
  obtain ⟨h1, h2, h3, h4⟩ := hgates
  unfold swap_shared_logic
  simp only [hamt, hall, h1, h2, h3, h4, Option.isSome_some, not_true_eq_false,
    not_lt, if_false, if_true, ite_false, ite_true, and_true, or_true,
    not_false_eq_true]
  split_ifs with hb <;> simp_all

/-- Witness for C1: with both go-live times in the past, no freeze times,
`base = 500`, `amount = 400`, the request succeeds with amount 400. -/
theorem fixed_amount_resolution_witness :
    swap_shared_logic ⟨100, none⟩ ⟨100, none⟩ ⟨500⟩ ⟨300⟩ ⟨150⟩ ⟨some 400, none⟩ =
      some (Except.ok ⟨400⟩) :=
  (fixed_amount_resolution ⟨100, none⟩ ⟨100, none⟩ ⟨500⟩ ⟨300⟩ ⟨300⟩ ⟨150⟩
    ⟨some 400, none⟩ 400 (by decide) rfl (by decide)).1.mpr (by decide)

/-- C2: for a request with `all = some true` and all timing gates passing,
the resolved amount equals `min(source_balance, base_balance)`, and the
result is the same whatever `request.amount` holds. -/
theorem all_request_resolution (p : FungibleParentEntanglerV0)
    (c : FungibleChildEntanglerV0) (base source : TokenAccount)
    (clock : Clock) (args : SwapV0Args)
    (hall : args.all = some true) (hgates : timingGatesPass p c clock) :
    swap_shared_logic p c base source clock args =
      some (Except.ok ⟨min source.amount base.amount⟩) ∧
    ∀ amt' : Option Nat,
      swap_shared_logic p c base source clock { args with amount := amt' } =
        some (Except.ok ⟨min source.amount base.amount⟩) := by
  obtain ⟨h1, h2, h3, h4⟩ := hgates
  constructor
  · unfold swap_shared_logic
    simp only [hall, h1, h2, h3, h4, Option.isSome_some, and_self, true_or,
      not_true_eq_false, not_lt, if_false, ite_false, ite_true,
      not_false_eq_true, if_true]
    split_ifs with hb <;> simp_all <;> omega
  · intro amt'
    unfold swap_shared_logic
    simp only [hall, h1, h2, h3, h4, Option.isSome_some, and_self, true_or,
      not_true_eq_false, not_lt, if_false, ite_false, ite_true,
      not_false_eq_true, if_true]
    split_ifs with hb <;> simp_all <;> omega

/-- Witness for C2: `base = 500`, `source = 300`, `{all: true}` resolves to
300 = min(300, 500), and is insensitive to the amount field. -/
theorem all_request_resolution_witness :
    swap_shared_logic ⟨100, none⟩ ⟨100, none⟩ ⟨500⟩ ⟨300⟩ ⟨150⟩ ⟨none, some true⟩ =
      some (Except.ok ⟨min 300 500⟩) ∧
    swap_shared_logic ⟨100, none⟩ ⟨100, none⟩ ⟨500⟩ ⟨300⟩ ⟨150⟩ ⟨some 7, some true⟩ =
      some (Except.ok ⟨min 300 500⟩) :=
  ⟨(all_request_resolution ⟨100, none⟩ ⟨100, none⟩ ⟨500⟩ ⟨300⟩ ⟨150⟩
      ⟨none, some true⟩ rfl (by decide)).1,
   (all_request_resolution ⟨100, none⟩ ⟨100, none⟩ ⟨500⟩ ⟨300⟩ ⟨150⟩
      ⟨none, some true⟩ rfl (by decide)).2 (some 7)⟩

/-- Witness for C7 at a concrete input. -/
theorem swap_shared_logic_deterministic_witness :
    swap_shared_logic ⟨100, none⟩ ⟨100, none⟩ ⟨500⟩ ⟨300⟩ ⟨150⟩ ⟨none, some true⟩ =
      swap_shared_logic ⟨100, none⟩ ⟨100, none⟩ ⟨500⟩ ⟨300⟩ ⟨150⟩ ⟨none, some true⟩ :=
  swap_shared_logic_deterministic ⟨100, none⟩ ⟨100, none⟩ ⟨100, none⟩ ⟨100, none⟩
    ⟨500⟩ ⟨500⟩ ⟨300⟩ ⟨300⟩ ⟨150⟩ ⟨150⟩ ⟨none, some true⟩ ⟨none, some true⟩
    rfl rfl rfl rfl rfl rfl

/-- C5: the gates are evaluated in the fixed order â well-formedness
(`InvalidArgs`), parent liveness (`ParentNotLiveYet`), child liveness
(`ChildNotLiveYet`), parent freeze (`ParentSwapFrozen`), child freeze
(`ChildSwapFrozen`), then on the fixed-amount path balance sufficiency
(`TokenAccountAmountTooLow`): the first failing gate, with every earlier
gate passing, determines the reported rejection. -/
theorem gate_evaluation_order (p : FungibleParentEntanglerV0)
    (c : FungibleChildEntanglerV0) (base source : TokenAccount)
    (clock : Clock) (args : SwapV0Args) :
    (¬ ((args.all.isSome ∧ args.all = some true) ∨ args.amount.isSome) →
      swap_shared_logic p c base source clock args =
        some (Except.error ErrorCode.InvalidArgs)) ∧
    (((args.all.isSome ∧ args.all = some true) ∨ args.amount.isSome) →
      ¬ p.go_live_unix_time < clock.unix_timestamp →
      swap_shared_logic p c base source clock args =
        some (Except.error ErrorCode.ParentNotLiveYet)) ∧
    (((args.all.isSome ∧ args.all = some true) ∨ args.amount.isSome) →
      p.go_live_unix_time < clock.unix_timestamp →
      ¬ c.go_live_unix_time < clock.unix_timestamp →
      swap_shared_logic p c base source clock args =
        some (Except.error ErrorCode.ChildNotLiveYet)) ∧
    (((args.all.isSome ∧ args.all = some true) ∨ args.amount.isSome) →
      p.go_live_unix_time < clock.unix_timestamp →
      c.go_live_unix_time < clock.unix_timestamp →
      ¬ (p.freeze_swap_unix_time = none ∨
          optionIntGt p.freeze_swap_unix_time (some clock.unix_timestamp) = true) →
      swap_shared_logic p c base source clock args =
        some (Except.error ErrorCode.ParentSwapFrozen)) ∧
    (((args.all.isSome ∧ args.all = some true) ∨ args.amount.isSome) →
      p.go_live_unix_time < clock.unix_timestamp →
      c.go_live_unix_time < clock.unix_timestamp →
      (p.freeze_swap_unix_time = none ∨
        optionIntGt p.freeze_swap_unix_time (some clock.unix_timestamp) = true) →
      ¬ (c.freeze_swap_unix_time = none ∨
          optionIntGt c.freeze_swap_unix_time (some clock.unix_timestamp) = true) →
      swap_shared_logic p c base source clock args =
        some (Except.error ErrorCode.ChildSwapFrozen)) ∧
    (((args.all.isSome ∧ args.all = some true) ∨ args.amount.isSome) →
      p.go_live_unix_time < clock.unix_timestamp →
      c.go_live_unix_time < clock.unix_timestamp →
      (p.freeze_swap_unix_time = none ∨
        optionIntGt p.freeze_swap_unix_time (some clock.unix_timestamp) = true) →
      (c.freeze_swap_unix_time = none ∨
        optionIntGt c.freeze_swap_unix_time (some clock.unix_timestamp) = true) →
      ¬ args.all = some true →
      ∀ n, args.amount = some n → ¬ base.amount ≥ n →
      swap_shared_logic p c base source clock args =
        some (Except.error ErrorCode.TokenAccountAmountTooLow)) := by
  refine ⟨?_, ?_, ?_, ?_, ?_, ?_⟩
  · intro h
    unfold swap_shared_logic
    simp_all
  · intro h1 h2
    unfold swap_shared_logic
    simp_all
  · intro h1 h2 h3
    unfold swap_shared_logic
    simp_all
  · intro h1 h2 h3 h4
    unfold swap_shared_logic
    simp_all
  · intro h1 h2 h3 h4 h5
    unfold swap_shared_logic
    simp_all
  · intro h1 h2 h3 h4 h5 h6 n h7 h8
    unfold swap_shared_logic
    simp_all

/-- Witness for C5: a malformed request with a not-yet-live parent reports
`InvalidArgs` (the first gate), and with every earlier gate passing an
insufficient balance reports `TokenAccountAmountTooLow` (the last gate). -/
theorem gate_evaluation_order_witness :
    swap_shared_logic ⟨100, none⟩ ⟨100, none⟩ ⟨500⟩ ⟨300⟩ ⟨50⟩ ⟨none, none⟩ =
      some (Except.error ErrorCode.InvalidArgs) ∧
    swap_shared_logic ⟨100, none⟩ ⟨100, none⟩ ⟨500⟩ ⟨300⟩ ⟨150⟩ ⟨some 600, none⟩ =
      some (Except.error ErrorCode.TokenAccountAmountTooLow) :=
  ⟨(gate_evaluation_order ⟨100, none⟩ ⟨100, none⟩ ⟨500⟩ ⟨300⟩ ⟨50⟩
      ⟨none, none⟩).1 (by decide),
   (gate_evaluation_order ⟨100, none⟩ ⟨100, none⟩ ⟨500⟩ ⟨300⟩ ⟨150⟩
      ⟨some 600, none⟩).2.2.2.2.2 (Or.inr (by decide)) (by decide) (by decide)
      (Or.inl rfl) (Or.inl rfl) (by decide) 600 rfl (by decide)⟩

/-- C9: a request with `all = some false` behaves exactly as if `all` were
absent: the resolver returns the same result for both; with no amount it
is rejected with `InvalidArgs`, and with `amount = some n` (gates passing)
it is processed as a fixed-amount request, not via the min path. -/
theorem all_false_as_absent (p : FungibleParentEntanglerV0)
    (c : FungibleChildEntanglerV0) (base source : TokenAccount)
    (clock : Clock) (amt : Option Nat) :
    swap_shared_logic p c base source clock ⟨amt, some false⟩ =
      swap_shared_logic p c base source clock ⟨amt, none⟩ ∧
    (amt = none →
      swap_shared_logic p c base source clock ⟨amt, some false⟩ =
        some (Except.error ErrorCode.InvalidArgs)) ∧
    (∀ n, amt = some n → timingGatesPass p c clock →
      swap_shared_logic p c base source clock ⟨amt, some false⟩ =
        (if base.amount ≥ n then some (Except.ok ⟨n⟩)
         else some (Except.error ErrorCode.TokenAccountAmountTooLow))) := by
  refine ⟨?_, ?_, ?_⟩
  · rcases amt with _ | n <;> rfl
  · intro h
    subst h
    rfl
  · intro n h hg
    subst h
    obtain ⟨h1, h2, h3, h4⟩ := hg
    unfold swap_shared_logic
    simp [h1, h2, h3, h4]

/-- Witness for C9: with amount 400 and `all = some false` the request
resolves like a fixed-amount request. -/
theorem all_false_as_absent_witness :
    swap_shared_logic ⟨100, none⟩ ⟨100, none⟩ ⟨500⟩ ⟨300⟩ ⟨150⟩ ⟨some 400, some false⟩ =
      (if (500 : Nat) ≥ 400 then some (Except.ok ⟨400⟩)
       else some (Except.error ErrorCode.TokenAccountAmountTooLow)) :=
  (all_false_as_absent ⟨100, none⟩ ⟨100, none⟩ ⟨500⟩ ⟨300⟩ ⟨150⟩
    (some 400)).2.2 400 rfl (by decide)

end Strata
